import Mathlib

/-!
Verification development for the Open Food Facts scraping pipeline
(`Open-food-V2.py`).

The script scrapes product pages from a paginated catalog: `main` splits the
page range over `NUMBER_OF_PROCESS` pool workers with `np.array_split`, each
worker (`get_products_df`) lists the product URLs of each of its pages, runs
`get_product_info` on every product, appends the resulting record to an
in-memory list, inserts it into MongoDB (`insert_one`) and rewrites its
per-worker JSON snapshot file after each success.

This file gives a shallow embedding of that pipeline:
* the DOM of one product page is abstracted as an `ItemPage` structure whose
  fields hold exactly the query results the extraction helpers read;
* selenium's raising `find_element` calls are modelled as `Option` fields
  (`none` = `NoSuchElementException`), the non-raising `find_elements` calls
  as plain lists;
* Python exceptions are modelled with `Except Unit`;
* Python dictionaries with a fixed key set are modelled as ordered
  association lists (`List (String × String)`), `d[k] = v` on an existing key
  as `updateAssoc`;
* Python `str.replace` / `in` (substring test) are modelled character-wise by
  `pyReplace` / `strContains` since they must evaluate inside the kernel.
-/

/-- Sentinel for "attempted but absent" field values (`UNKNOWN_VALUE = 'XXX'`). -/
def UNKNOWN_VALUE : String := "XXX"

/-- Number of pool workers (`NUMBER_OF_PROCESS = 4`). -/
def NUMBER_OF_PROCESS : Nat := 4

/-- Substring occurrence test on character lists, modelling Python's
`pat in s`: true iff `pat` occurs contiguously in the list. -/
def charsContain (pat : List Char) : List Char → Bool
  | [] => pat.isEmpty
  | c :: cs => pat.isPrefixOf (c :: cs) || charsContain pat cs

/-- Python's `pat in s` substring test on strings. -/
def strContains (s pat : String) : Bool := charsContain pat.data s.data

/-- Python's `str.replace` on character lists: replace every non-overlapping
occurrence of `pat` by `rep`, scanning left to right.  The `fuel` argument
makes the recursion structural (hence kernel-computable); each step consumes
one unit of fuel and at least one character, so any `fuel ≥ l.length` gives
the untruncated result.  (All call sites in the source use a nonempty
pattern or an empty replacement, where returning the input unchanged for an
empty pattern agrees with Python.) -/
def replaceCharsGo (pat rep : List Char) : Nat → List Char → List Char
  | _, [] => []
  | 0, l => l
  | fuel + 1, c :: cs =>
    if pat ≠ [] ∧ pat.isPrefixOf (c :: cs) then
      rep ++ replaceCharsGo pat rep fuel ((c :: cs).drop pat.length)
    else
      c :: replaceCharsGo pat rep fuel cs

/-- `replaceCharsGo` with enough fuel for the whole input. -/
def replaceChars (pat rep l : List Char) : List Char :=
  replaceCharsGo pat rep l.length l

/-- Python's `s.replace(pat, rep)` on strings. -/
def pyReplace (s pat rep : String) : String := ⟨replaceChars pat.data rep.data s.data⟩

/-- A product record: ordered mapping from field names to values, as built by
`get_product_info` (a Python dict with insertion order). -/
abbrev FieldRecord := List (String × String)

/-- Python's `d[k] = v` on a dict whose key set already contains `k` is an
in-place value update; on a key outside the dict's key set the source never
assigns (it always guards with `if key in d.keys()`), which here is the
identity since no entry matches. -/
def updateAssoc (dict : FieldRecord) (k v : String) : FieldRecord :=
  dict.map (fun p => if p.1 = k then (k, v) else p)

/-- One `p` element inside the characteristics container
(`get_product_caracteristics`): its first `span` child's text
(`find_element_by_tag_name("span")`, raising when absent, hence `Option`),
its `a` children's hrefs, and its own text. -/
structure CaracP where
  spanLabel : Option String
  links : List String
  text : String

/-- One `div.medium-6.columns` element (`get_ingredients`): its first `b`
child's text and its first `a` child's text (raising lookups, hence
`Option`). -/
structure IngredientDiv where
  bLabel : Option String
  aText : Option String

/-- One `div.small-12.xlarge-6.columns` element
(`get_100g_nutritional_info`): the texts of its `h4` children and its own
text. -/
structure Nutri100Div where
  h4Texts : List String
  text : String

/-- One element of `attributes_grid` as enumerated by
`find_elements_by_tag_name('*')` in `get_environment_impact`: its text and
its first `span` child's text (raising lookup, hence `Option`). -/
structure GridElem where
  text : String
  spanText : Option String

/-- The `attributes_grid` element: `h4` children texts (read by `get_scores`)
and all descendant elements (read by `get_environment_impact`). -/
structure AttributesGrid where
  h4Texts : List String
  allElems : List GridElem

/-- Abstraction of one rendered product page: one field per DOM query the
extraction helpers perform.  `Option` fields model raising
`find_element`/`find_element_by_id` lookups (`none` =
`NoSuchElementException`); list fields model `find_elements` results. -/
structure ItemPage where
  /-- `//h1[@itemprop='name']` (raising lookup in `get_product_name`). -/
  nameH1 : Option String
  /-- texts of `//span[@property='food:code']` (`get_code_barres`). -/
  codeSpans : List String
  /-- `attributes_grid` by id (raising lookup in `get_scores` and
  `get_environment_impact`). -/
  attributesGrid : Option AttributesGrid
  /-- `//div[@class='medium-12 large-8 ...columns']` elements, each with its
  `p` children (`get_product_caracteristics` indexes `[0]`, raising
  `IndexError` on an empty list). -/
  caracContainers : List (List CaracP)
  /-- `//div[@class='medium-6 columns']` elements (`get_ingredients`). -/
  ingredientDivs : List IngredientDiv
  /-- `//div[@class='small-12 xlarge-6 columns']` elements
  (`get_100g_nutritional_info`). -/
  nutri100Divs : List Nutri100Div
  /-- parent texts of the checked comparison checkboxes (`get_comparison`). -/
  comparisonChecked : List String
  /-- `td` texts of the first `tr#nutriment_energy-kcal_tr`, `none` when no
  such row exists (`get_nutritional_info`). -/
  energyKcalTds : Option (List String)
  /-- `td` texts of the first `tr#nutriment_energy_tr`. -/
  energyTds : Option (List String)

/-- `get_product_name`: `driver.find_element_by_xpath("//h1[@itemprop='name']").text`;
the lookup raises when the node is absent. -/
def get_product_name (page : ItemPage) : Except Unit String :=
  match page.nameH1 with
  | some t => Except.ok t
  | none => Except.error ()

/-- `get_code_barres`: returns the single `span[property='food:code']` text
when exactly one such element exists, else `UNKNOWN_VALUE`. -/
def get_code_barres (page : ItemPage) : String :=
  match page.codeSpans with
  | [e] => e
  | _ => UNKNOWN_VALUE

/-- Loop body of `get_scores`: the `elif` chain over one `h4` text. -/
def scoresStep (acc : String × String × String) (text : String) : String × String × String :=
  if strContains text "Nutri-Score" then (text, acc.2.1, acc.2.2)
  else if strContains text "NOVA" then (acc.1, text, acc.2.2)
  else if strContains text "Éco-Score" then (acc.1, acc.2.1, text)
  else acc

/-- `get_scores`: `find_element_by_id('attributes_grid')` raises when the
grid is absent; otherwise the three scores start at `UNKNOWN_VALUE` and each
`h4` text updates at most one of them. -/
def get_scores (page : ItemPage) : Except Unit (String × String × String) :=
  match page.attributesGrid with
  | none => Except.error ()
  | some grid =>
      Except.ok (grid.h4Texts.foldl scoresStep (UNKNOWN_VALUE, UNKNOWN_VALUE, UNKNOWN_VALUE))

/-- Initial characteristics dict of `get_product_caracteristics`. -/
def carac0 : FieldRecord :=
  [("Dénomination générique", UNKNOWN_VALUE),
   ("Quantité", UNKNOWN_VALUE),
   ("Conditionnement", UNKNOWN_VALUE),
   ("Marques", UNKNOWN_VALUE),
   ("Catégories", UNKNOWN_VALUE),
   ("Labels, certifications, récompenses", UNKNOWN_VALUE),
   ("Origine des ingrédients", UNKNOWN_VALUE),
   ("Lieux de fabrication ou de transformation", UNKNOWN_VALUE),
   ("Code de traçabilité", UNKNOWN_VALUE),
   ("Lien vers la page du produit sur le site officiel du fabricant", UNKNOWN_VALUE),
   ("Magasins", UNKNOWN_VALUE),
   ("Pays de vente", UNKNOWN_VALUE)]

/-- Loop body of `get_product_caracteristics` for one `p` element: read the
`span` label (raising when absent), compute the value (single `a` href for
the manufacturer link, else the element text with the label stripped), strip
`' :'` from the label and assign when the key belongs to the dict. -/
def caracStep (dict : FieldRecord) (p : CaracP) : Except Unit FieldRecord :=
  match p.spanLabel with
  | none => Except.error ()
  | some label =>
    let value :=
      if strContains label "site officiel du fabricant" then
        match p.links with
        | [l] => l
        | _ => UNKNOWN_VALUE
      else pyReplace p.text label ""
    let key := pyReplace label " :" ""
    if (dict.map Prod.fst).contains key then Except.ok (updateAssoc dict key value)
    else Except.ok dict

/-- The `for element in elements` loop of `get_product_caracteristics`. -/
def caracLoop : FieldRecord → List CaracP → Except Unit FieldRecord
  | dict, [] => Except.ok dict
  | dict, p :: rest =>
    match caracStep dict p with
    | Except.error e => Except.error e
    | Except.ok d2 => caracLoop d2 rest

/-- `get_product_caracteristics`: indexing `find_elements(...)[0]` raises
`IndexError` when no container matches; then each `p` child may update the
fixed 12-key dict. -/
def get_product_caracteristics (page : ItemPage) : Except Unit FieldRecord :=
  match page.caracContainers with
  | [] => Except.error ()
  | container :: _ => caracLoop carac0 container

/-- The palm-oil field name, `"Ingrédients issus de l'huile de palme"`. -/
def palmKey : String := "Ingrédients issus de l\x27huile de palme"

/-- Initial ingredients dict of `get_ingredients`: note the palm-oil field
starts at `'No'`, not at the sentinel. -/
def ing0 : FieldRecord :=
  [("Additifs", UNKNOWN_VALUE),
   (palmKey, "No")]

/-- Loop body of `get_ingredients` for one `div.medium-6.columns`: read the
`b` label (raising when absent), strip `' :'`, and when the key belongs to
the dict set the palm-oil key to `'Yes'` or any other key to the first `a`
child's text (raising when absent). -/
def ingStep (dict : FieldRecord) (d : IngredientDiv) : Except Unit FieldRecord :=
  match d.bLabel with
  | none => Except.error ()
  | some rawLabel =>
    let label := pyReplace rawLabel " :" ""
    if (dict.map Prod.fst).contains label then
      if strContains label "l\x27huile de palme" then Except.ok (updateAssoc dict label "Yes")
      else
        match d.aText with
        | none => Except.error ()
        | some t => Except.ok (updateAssoc dict label t)
    else Except.ok dict

/-- The `for element in elements` loop of `get_ingredients`. -/
def ingLoop : FieldRecord → List IngredientDiv → Except Unit FieldRecord
  | dict, [] => Except.ok dict
  | dict, d :: rest =>
    match ingStep dict d with
    | Except.error e => Except.error e
    | Except.ok d2 => ingLoop d2 rest

/-- `get_ingredients`. -/
def get_ingredients (page : ItemPage) : Except Unit FieldRecord :=
  ingLoop ing0 page.ingredientDivs

/-- Initial dict of `get_100g_nutritional_info`. -/
def n100init : FieldRecord :=
  [("Matières grasses / Lipides", UNKNOWN_VALUE),
   ("Acides gras saturés", UNKNOWN_VALUE),
   ("Sucres", UNKNOWN_VALUE),
   ("Sel", UNKNOWN_VALUE)]

/-- Inner loop `for key in nutritionals.keys(): if key in value:
nutritionals[key] = value` of `get_100g_nutritional_info`. -/
def n100AssignKeys : FieldRecord → List String → String → FieldRecord
  | dict, [], _ => dict
  | dict, k :: ks, v =>
    n100AssignKeys (if strContains v k then updateAssoc dict k v else dict) ks v

/-- Middle loop `for value in values[1:]` of `get_100g_nutritional_info`. -/
def n100Values : FieldRecord → List String → FieldRecord
  | dict, [] => dict
  | dict, v :: vs => n100Values (n100AssignKeys dict (dict.map Prod.fst) v) vs

/-- Effect of one `div` in `get_100g_nutritional_info`: it participates when
its first `h4` text is the 100 g marker; its own text is split on newlines
and every line after the first may assign the dict keys it contains. -/
def n100DivStep (dict : FieldRecord) (d : Nutri100Div) : FieldRecord :=
  match d.h4Texts with
  | [] => dict
  | t :: _ =>
    if t = "Repères nutritionnels pour 100 g" then
      n100Values dict (d.text.splitOn "\n").tail
    else dict

/-- Outer loop of `get_100g_nutritional_info`. -/
def n100Loop : FieldRecord → List Nutri100Div → FieldRecord
  | dict, [] => dict
  | dict, d :: ds => n100Loop (n100DivStep dict d) ds

/-- `get_100g_nutritional_info`. -/
def get_100g_nutritional_info (page : ItemPage) : FieldRecord :=
  n100Loop n100init page.nutri100Divs

/-- `get_comparison`: `UNKNOWN_VALUE` when no comparison checkbox is checked,
else the parent texts joined by `'|'`. -/
def get_comparison (page : ItemPage) : String :=
  if page.comparisonChecked.length = 0 then UNKNOWN_VALUE
  else String.intercalate "|" page.comparisonChecked

/-- Shared shape of the two blocks of `get_nutritional_info`: when a matching
`tr` exists (`len(nutriments) > 0`) and its `td` list is nonempty
(`len(elements) != 0`), the code reads `elements[1]`, raising `IndexError`
when there is only one `td`. -/
def tdValue : Option (List String) → Except Unit (Option String)
  | none => Except.ok none
  | some [] => Except.ok none
  | some (_ :: tds) =>
    match tds with
    | v :: _ => Except.ok (some v)
    | [] => Except.error ()

/-- Initial dict of `get_nutritional_info`. -/
def nutri0 : FieldRecord :=
  [("Energie (kcal)", UNKNOWN_VALUE),
   ("Nombre de calorie (Énergie (kcal))", UNKNOWN_VALUE)]

/-- `get_nutritional_info`. -/
def get_nutritional_info (page : ItemPage) : Except Unit FieldRecord :=
  match tdValue page.energyKcalTds with
  | Except.error e => Except.error e
  | Except.ok v1 =>
    let d1 := match v1 with
      | some v => updateAssoc nutri0 "Energie (kcal)" v
      | none => nutri0
    match tdValue page.energyTds with
    | Except.error e => Except.error e
    | Except.ok v2 =>
      Except.ok (match v2 with
        | some v => updateAssoc d1 "Nombre de calorie (Énergie (kcal))" v
        | none => d1)

/-- The `for element in elements: if 'Éco-Score' in element.text: return
element.find_element_by_tag_name('span').text` loop of
`get_environment_impact`; the `span` lookup raises when absent. -/
def envImpactLoop : List GridElem → Except Unit String
  | [] => Except.ok UNKNOWN_VALUE
  | e :: rest =>
    if strContains e.text "Éco-Score" then
      match e.spanText with
      | some t => Except.ok t
      | none => Except.error ()
    else envImpactLoop rest

/-- `get_environment_impact`: the `attributes_grid` lookup raises when the
grid is absent. -/
def get_environment_impact (page : ItemPage) : Except Unit String :=
  match page.attributesGrid with
  | none => Except.error ()
  | some grid => envImpactLoop grid.allElems

/-- `get_product_info`: drives the extraction helpers in source order and
builds the record in dict insertion order.  Any exception raised by a helper
propagates and aborts the whole item (there is no per-step handler in the
source); the worker's per-item `try/except` is modelled in `processItem`. -/
def get_product_info (page : ItemPage) : Except Unit FieldRecord :=
  match get_product_name page with
  | Except.error e => Except.error e
  | Except.ok name =>
    match get_scores page with
    | Except.error e => Except.error e
    | Except.ok (nutri_score, nova, eco_score) =>
      match get_product_caracteristics page with
      | Except.error e => Except.error e
      | Except.ok caracteristics =>
        match get_ingredients page with
        | Except.error e => Except.error e
        | Except.ok ingredients =>
          match get_nutritional_info page with
          | Except.error e => Except.error e
          | Except.ok nutritionals =>
            match get_environment_impact page with
            | Except.error e => Except.error e
            | Except.ok env_impact =>
              Except.ok
                ([("Nom du Produit", name),
                  ("Code_barres", get_code_barres page),
                  ("Nutri-score", nutri_score),
                  ("NOVA", nova),
                  ("Eco-Score", eco_score)]
                 ++ caracteristics
                 ++ ingredients
                 ++ get_100g_nutritional_info page
                 ++ [("Comparaison avec les valeurs moyennes des produits de même catégorie",
                      get_comparison page)]
                 ++ nutritionals
                 ++ [("Impact environnemental", env_impact)])

/-!
Worker model (`get_products_df`).

For each page the worker calls `get_products_urls_by_page` (outside any
`try`, so a failure there propagates) and then, per product URL, runs the
body of the `try` block: `get_product_info`, `products.append(info)`,
`mongo_db.products.insert_one(info)`, full rewrite of the JSON snapshot
file, `total_success += 1`; any exception in that block is caught,
`total_error += 1`, and the loop continues.

The external world of one item is abstracted as an `ItemOutcome`: what the
calls inside the `try` block do.  The JSON rewrite (`json.dump` into a file
opened with mode `"w"`) is modelled as an atomic replacement of the file
contents; the MongoDB store itself is shared across workers and modelled
separately by `insert_one`.
-/

/-- What happens to one product inside the worker's `try` block:
`extractFail` = `get_product_info` raised (item page unreachable or any
raising DOM lookup inside it); `storeFail r` = extraction returned `r` and
`products.append(r)` ran, but `insert_one` raised before the snapshot was
rewritten; `ok r` = extraction, store insert and snapshot rewrite all
succeeded. -/
inductive ItemOutcome
  | extractFail
  | storeFail (r : FieldRecord)
  | ok (r : FieldRecord)

/-- Mutable state of one worker in `get_products_df`: the in-memory
`products` list, the contents of its `open_food_data#<pid>.json` snapshot
file (absent file modelled as `[]`), and the two counters. -/
structure WorkerState where
  products : List FieldRecord
  jsonFile : List FieldRecord
  total_success : Nat
  total_error : Nat

/-- Worker state at the start of `get_products_df`. -/
def initState : WorkerState := ⟨[], [], 0, 0⟩

/-- One iteration of the inner `for product_index in ...` loop: the `try`
block with its `except` handler. -/
def processItem (s : WorkerState) : ItemOutcome → WorkerState
  | ItemOutcome.extractFail => { s with total_error := s.total_error + 1 }
  | ItemOutcome.storeFail r =>
      { s with products := s.products ++ [r], total_error := s.total_error + 1 }
  | ItemOutcome.ok r =>
      { s with products := s.products ++ [r],
               jsonFile := s.products ++ [r],
               total_success := s.total_success + 1 }

/-- The inner product loop over one page's URL list. -/
def processItems (s : WorkerState) (l : List ItemOutcome) : WorkerState :=
  l.foldl processItem s

/-- What happens on one page of the partition: `fetchFail` =
`get_products_urls_by_page` raised (navigation/render failure) — this call
sits outside the `try` block; `items l` = the page listed products with the
given item outcomes. -/
inductive PageOutcome
  | fetchFail
  | items (l : List ItemOutcome)

/-- One iteration of the outer `for page_number in ...` loop.  A page fetch
failure is uncaught and propagates out of `get_products_df`. -/
def processPage (s : WorkerState) : PageOutcome → Except Unit WorkerState
  | PageOutcome.fetchFail => Except.error ()
  | PageOutcome.items l => Except.ok (processItems s l)

/-- The outer page loop of `get_products_df`: an uncaught exception aborts
the remaining pages of the partition. -/
def pagesLoop : WorkerState → List PageOutcome → Except Unit WorkerState
  | s, [] => Except.ok s
  | s, p :: rest =>
    match processPage s p with
    | Except.error e => Except.error e
    | Except.ok s2 => pagesLoop s2 rest

/-- `get_products_df` for one worker, as a function of what the external
world does on each page of its partition; on success its final state holds
the record list from which the dataframe/CSV export is built. -/
def get_products_df (pages : List PageOutcome) : Except Unit WorkerState :=
  pagesLoop initState pages

/-- MongoDB's `collection.insert_one(info)`: always inserts a new document,
never replaces an existing one (the shared store is modelled as the ordered
list of inserted documents). -/
def insert_one (store : List FieldRecord) (r : FieldRecord) : List FieldRecord :=
  store ++ [r]

/-!
Partitioner (`main`): `pages = list(np.arange(1, number_of_pages + 1))` and
`buckets = np.array_split(pages, NUMBER_OF_PROCESS)`.  `np.array_split`
splits a length-`L` list into `n` parts: the first `L % n` parts have
`L / n + 1` elements and the remaining parts `L / n` elements.
-/

/-- Section sizes used by `np.array_split` on a length-`L` input split into
`n` parts. -/
def splitSizes (L n : Nat) : List Nat :=
  List.replicate (L % n) (L / n + 1) ++ List.replicate (n - L % n) (L / n)

/-- Cut a list into consecutive chunks of the given sizes. -/
def splitBySizes {α : Type} : List Nat → List α → List (List α)
  | [], _ => []
  | sz :: rest, l => l.take sz :: splitBySizes rest (l.drop sz)

/-- `np.array_split(l, n)`. -/
def array_split {α : Type} (l : List α) (n : Nat) : List (List α) :=
  splitBySizes (splitSizes l.length n) l

/-- `list(np.arange(1, totalPages + 1))`: the PageIds `1..totalPages`. -/
def pagesList (totalPages : Nat) : List Nat := List.range' 1 totalPages

/-- The page partitions handed to the workers, generalised over the worker
count (`main` instantiates `workerCount := NUMBER_OF_PROCESS`). -/
def buckets (totalPages workerCount : Nat) : List (List Nat) :=
  array_split (pagesList totalPages) workerCount

/-- The buckets `main` actually builds. -/
def main_buckets (totalPages : Nat) : List (List Nat) :=
  buckets totalPages NUMBER_OF_PROCESS

/-- `main`'s result collection `[job.get() for job in jobs]`: waits on the
jobs in submission order; `job.get()` re-raises the exception of a failed
worker, aborting the comprehension at the first failed job. -/
def collect_results : List (Except Unit WorkerState) → Except Unit (List WorkerState)
  | [] => Except.ok []
  | Except.error e :: _ => Except.error e
  | Except.ok a :: rest =>
    match collect_results rest with
    | Except.error e => Except.error e
    | Except.ok others => Except.ok (a :: others)

/-!
Derived notions and concrete inputs used by the theorems below.
-/

/-- The declared field set of a product record, in insertion order: the 27
keys `get_product_info` always populates. -/
def declared_fields : List String :=
  ["Nom du Produit",
   "Code_barres",
   "Nutri-score",
   "NOVA",
   "Eco-Score",
   "Dénomination générique",
   "Quantité",
   "Conditionnement",
   "Marques",
   "Catégories",
   "Labels, certifications, récompenses",
   "Origine des ingrédients",
   "Lieux de fabrication ou de transformation",
   "Code de traçabilité",
   "Lien vers la page du produit sur le site officiel du fabricant",
   "Magasins",
   "Pays de vente",
   "Additifs",
   "Ingrédients issus de l\x27huile de palme",
   "Matières grasses / Lipides",
   "Acides gras saturés",
   "Sucres",
   "Sel",
   "Comparaison avec les valeurs moyennes des produits de même catégorie",
   "Energie (kcal)",
   "Nombre de calorie (Énergie (kcal))",
   "Impact environnemental"]

/-- Whether one `div.medium-6.columns` carries the palm-oil label: its `b`
text, stripped of `' :'`, is exactly the palm-oil key (the only dict key
containing the substring `"l'huile de palme"`). -/
def palmMatch (d : IngredientDiv) : Bool :=
  match d.bLabel with
  | some raw => pyReplace raw " :" "" == palmKey
  | none => false

/-- A product page whose required root nodes (name `h1`, `attributes_grid`,
characteristics container) are present but on which every
`find_elements`-based query comes back empty: every defaulting extraction
step is exercised on its failure path. -/
def minimalPage (name : String) : ItemPage :=
  { nameH1 := some name,
    codeSpans := [],
    attributesGrid := some ⟨[], []⟩,
    caracContainers := [[]],
    ingredientDivs := [],
    nutri100Divs := [],
    comparisonChecked := [],
    energyKcalTds := none,
    energyTds := none }

/-- The record extracted from `minimalPage name`: every field is the
sentinel except the product name and the palm-oil field (which defaults to
`'No'`). -/
def minimalRecord (name : String) : FieldRecord :=
  [("Nom du Produit", name),
   ("Code_barres", UNKNOWN_VALUE),
   ("Nutri-score", UNKNOWN_VALUE),
   ("NOVA", UNKNOWN_VALUE),
   ("Eco-Score", UNKNOWN_VALUE),
   ("Dénomination générique", UNKNOWN_VALUE),
   ("Quantité", UNKNOWN_VALUE),
   ("Conditionnement", UNKNOWN_VALUE),
   ("Marques", UNKNOWN_VALUE),
   ("Catégories", UNKNOWN_VALUE),
   ("Labels, certifications, récompenses", UNKNOWN_VALUE),
   ("Origine des ingrédients", UNKNOWN_VALUE),
   ("Lieux de fabrication ou de transformation", UNKNOWN_VALUE),
   ("Code de traçabilité", UNKNOWN_VALUE),
   ("Lien vers la page du produit sur le site officiel du fabricant", UNKNOWN_VALUE),
   ("Magasins", UNKNOWN_VALUE),
   ("Pays de vente", UNKNOWN_VALUE),
   ("Additifs", UNKNOWN_VALUE),
   (palmKey, "No"),
   ("Matières grasses / Lipides", UNKNOWN_VALUE),
   ("Acides gras saturés", UNKNOWN_VALUE),
   ("Sucres", UNKNOWN_VALUE),
   ("Sel", UNKNOWN_VALUE),
   ("Comparaison avec les valeurs moyennes des produits de même catégorie", UNKNOWN_VALUE),
   ("Energie (kcal)", UNKNOWN_VALUE),
   ("Nombre de calorie (Énergie (kcal))", UNKNOWN_VALUE),
   ("Impact environnemental", UNKNOWN_VALUE)]

/-- A product page whose name `h1` node is missing — the only failing step
is `get_product_name`. -/
def pageNoName : ItemPage := { minimalPage "Produit" with nameH1 := none }

/-- A product page whose `attributes_grid` element is missing — the only
failing step is `get_scores` (and `get_environment_impact` behind it). -/
def pageNoGrid : ItemPage := { minimalPage "Produit" with attributesGrid := none }

/-- A fairly rich product page: name, barcode, three scores, one
characteristic, an additive, the palm-oil label and a kcal row. -/
def pageC6 : ItemPage :=
  { nameH1 := some "Nutella",
    codeSpans := ["3017620422003"],
    attributesGrid := some ⟨["Nutri-Score D", "NOVA 4 - Aliments ultra-transformés", "Éco-Score E"], []⟩,
    caracContainers := [[⟨some "Quantité :", [], "Quantité : 400 g"⟩]],
    ingredientDivs := [⟨some "Additifs :", some "E322 - Lécithines"⟩,
                       ⟨some "Ingrédients issus de l\x27huile de palme :", none⟩],
    nutri100Divs := [],
    comparisonChecked := [],
    energyKcalTds := some ["Énergie (kcal)", "539 kcal"],
    energyTds := none }

/-- The record extracted from `pageC6`. -/
def recC6 : FieldRecord :=
  [("Nom du Produit", "Nutella"),
   ("Code_barres", "3017620422003"),
   ("Nutri-score", "Nutri-Score D"),
   ("NOVA", "NOVA 4 - Aliments ultra-transformés"),
   ("Eco-Score", "Éco-Score E"),
   ("Dénomination générique", UNKNOWN_VALUE),
   ("Quantité", " 400 g"),
   ("Conditionnement", UNKNOWN_VALUE),
   ("Marques", UNKNOWN_VALUE),
   ("Catégories", UNKNOWN_VALUE),
   ("Labels, certifications, récompenses", UNKNOWN_VALUE),
   ("Origine des ingrédients", UNKNOWN_VALUE),
   ("Lieux de fabrication ou de transformation", UNKNOWN_VALUE),
   ("Code de traçabilité", UNKNOWN_VALUE),
   ("Lien vers la page du produit sur le site officiel du fabricant", UNKNOWN_VALUE),
   ("Magasins", UNKNOWN_VALUE),
   ("Pays de vente", UNKNOWN_VALUE),
   ("Additifs", "E322 - Lécithines"),
   (palmKey, "Yes"),
   ("Matières grasses / Lipides", UNKNOWN_VALUE),
   ("Acides gras saturés", UNKNOWN_VALUE),
   ("Sucres", UNKNOWN_VALUE),
   ("Sel", UNKNOWN_VALUE),
   ("Comparaison avec les valeurs moyennes des produits de même catégorie", UNKNOWN_VALUE),
   ("Energie (kcal)", "539 kcal"),
   ("Nombre de calorie (Énergie (kcal))", UNKNOWN_VALUE),
   ("Impact environnemental", UNKNOWN_VALUE)]

/-- A minimal page carrying only the palm-oil ingredient label. -/
def pageC10 : ItemPage :=
  { minimalPage "Margarine" with
    ingredientDivs := [⟨some "Ingrédients issus de l\x27huile de palme :", none⟩] }

/-- The record extracted from `pageC10`: `minimalRecord "Margarine"` with
the palm-oil field flipped to `'Yes'`. -/
def recC10 : FieldRecord := updateAssoc (minimalRecord "Margarine") palmKey "Yes"

/-- Small distinct records used as concrete worker inputs. -/
def recA : FieldRecord := [("Nom du Produit", "A"), ("Code_barres", "1")]

/-- Second concrete record. -/
def recB : FieldRecord := [("Nom du Produit", "B"), ("Code_barres", "2")]

/-- Third concrete record. -/
def recC : FieldRecord := [("Nom du Produit", "C"), ("Code_barres", "3")]

/-- Fourth concrete record. -/
def recD : FieldRecord := [("Nom du Produit", "D"), ("Code_barres", "4")]

/-- Fifth concrete record. -/
def recE : FieldRecord := [("Nom du Produit", "E"), ("Code_barres", "5")]

/-- Sixth concrete record. -/
def recF : FieldRecord := [("Nom du Produit", "F"), ("Code_barres", "6")]

/-- Seventh concrete record. -/
def recG : FieldRecord := [("Nom du Produit", "G"), ("Code_barres", "7")]

/-- The records of the items whose whole `try` block succeeded, in order. -/
def okRecords : List ItemOutcome → List FieldRecord
  | [] => []
  | ItemOutcome.ok r :: rest => r :: okRecords rest
  | ItemOutcome.extractFail :: rest => okRecords rest
  | ItemOutcome.storeFail _ :: rest => okRecords rest

/-!
Helper lemmas shared by the claim theorems.
-/

/-- Unfolding lemma: processing a nonempty URL list is one `try` block
followed by the rest. -/
theorem processItems_cons (s : WorkerState) (x : ItemOutcome) (l : List ItemOutcome) :
    processItems s (x :: l) = processItems (processItem s x) l := rfl

/-- Claim C1, counterexample: on a product page whose name node is missing
(and everything else defaulting), `get_product_info` raises instead of
returning a record with only the name field set to the sentinel — the whole
item is aborted and will be counted as failed by the worker. -/
theorem C1_counterexample : get_product_info pageNoName = Except.error () := rfl

/-- Claim C1, amended: only the `find_elements`-based extraction steps are
failure-isolated (they default their fields to the sentinel); a missing
product-name node or a missing `attributes_grid` raises and aborts the whole
item extraction.  When the required root nodes are present and every
defaulting query is empty, extraction succeeds with every field at the
sentinel (palm oil at `'No'`). -/
theorem C1_thm :
    (∀ page : ItemPage, page.nameH1 = none → get_product_info page = Except.error ()) ∧
    (∀ page : ItemPage, page.attributesGrid = none → get_product_info page = Except.error ()) ∧
    (∀ name : String, get_product_info (minimalPage name) = Except.ok (minimalRecord name)) := by
  refine ⟨?_, ?_, ?_⟩
  · intro page h
    simp [get_product_info, get_product_name, h]
  · intro page h
    cases hn : get_product_name page with
    | error e => cases e; simp [get_product_info, hn]
    | ok name => simp [get_product_info, hn, get_scores, h]
  · intro name
    rfl

/-- Claim C1, witness: the amended statement at concrete inputs. -/
theorem C1_witness :
    pageNoGrid.attributesGrid = none ∧
    get_product_info pageNoGrid = Except.error () ∧
    get_product_info (minimalPage "Produit") = Except.ok (minimalRecord "Produit") :=
  ⟨rfl, C1_thm.2.1 pageNoGrid rfl, C1_thm.2.2 "Produit"⟩

/-- Claim C2, counterexample: the store write path is `insert_one`, so
writing the same record twice leaves the store with two entries, not one. -/
theorem C2_counterexample :
    insert_one (insert_one [] recG) recG ≠ insert_one [] recG := by
  decide

/-- Claim C2, amended: the store write is a plain insert, not an upsert —
writing the same `FieldRecord` twice appends two copies, so re-extracting
the same item creates a duplicate entry and the double write is never
observably equal to the single write. -/
theorem C2_thm : ∀ (store : List FieldRecord) (r : FieldRecord),
    insert_one (insert_one store r) r = store ++ [r, r] ∧
    insert_one (insert_one store r) r ≠ insert_one store r := by
  intro store r
  constructor
  · simp [insert_one]
  · intro h
    have hlen := congrArg List.length h
    simp [insert_one] at hlen

/-- Claim C3, counterexample: after the run
`[storeFail recA, ok recB]` the worker has counted exactly one success, yet
its JSON artifact holds two records — the snapshot after the successful item
also contains the record of the earlier item whose store insert failed, so
it is not "exactly the first N records". -/
theorem C3_counterexample :
    (processItems initState [ItemOutcome.storeFail recA, ItemOutcome.ok recB]).total_success = 1 ∧
    (processItems initState [ItemOutcome.storeFail recA, ItemOutcome.ok recB]).jsonFile
      = [recA, recB] := by
  exact ⟨rfl, rfl⟩

/-- Claim C3, amended: after every successfully processed item the snapshot
artifact equals the whole in-memory record list at that moment; in a run
with no store-write failure this is exactly the records of the successful
items, in order, and the success counter equals their number.  (The
`json.dump` rewrite is modelled as atomic.) -/
theorem C3_thm : ∀ (l : List ItemOutcome) (s : WorkerState),
    (∀ r, ItemOutcome.storeFail r ∉ l) → s.jsonFile = s.products →
    (processItems s l).products = s.products ++ okRecords l ∧
    (processItems s l).jsonFile = (processItems s l).products ∧
    (processItems s l).total_success = s.total_success + (okRecords l).length := by
  intro l
  induction l with
  | nil =>
    intro s hns hf
    exact ⟨by simp [processItems, okRecords], by simpa [processItems] using hf,
           by simp [processItems, okRecords]⟩
  | cons x rest ih =>
    intro s hns hf
    have hns2 : ∀ r, ItemOutcome.storeFail r ∉ rest := fun r hr =>
      hns r (List.mem_cons_of_mem _ hr)
    rw [processItems_cons]
    cases x with
    | extractFail =>
      obtain ⟨h1, h2, h3⟩ := ih (processItem s ItemOutcome.extractFail) hns2
        (by simpa [processItem] using hf)
      refine ⟨?_, h2, ?_⟩
      · rw [h1]; simp [processItem, okRecords]
      · rw [h3]; simp [processItem, okRecords]
    | storeFail r =>
      exact absurd (List.mem_cons_self _ _) (hns r)
    | ok r =>
      obtain ⟨h1, h2, h3⟩ := ih (processItem s (ItemOutcome.ok r)) hns2 (by simp [processItem])
      refine ⟨?_, h2, ?_⟩
      · rw [h1]; simp [processItem, okRecords]
      · rw [h3]; simp [processItem, okRecords]; omega

/-- Claim C3, witness: the amended statement on the concrete run
`[ok recA, extractFail, ok recB]` from the initial worker state. -/
theorem C3_witness :
    (∀ r, ItemOutcome.storeFail r ∉
        [ItemOutcome.ok recA, ItemOutcome.extractFail, ItemOutcome.ok recB]) ∧
    initState.jsonFile = initState.products ∧
    ((processItems initState
        [ItemOutcome.ok recA, ItemOutcome.extractFail, ItemOutcome.ok recB]).products
      = initState.products ++
        okRecords [ItemOutcome.ok recA, ItemOutcome.extractFail, ItemOutcome.ok recB] ∧
     (processItems initState
        [ItemOutcome.ok recA, ItemOutcome.extractFail, ItemOutcome.ok recB]).jsonFile
      = (processItems initState
          [ItemOutcome.ok recA, ItemOutcome.extractFail, ItemOutcome.ok recB]).products ∧
     (processItems initState
        [ItemOutcome.ok recA, ItemOutcome.extractFail, ItemOutcome.ok recB]).total_success
      = initState.total_success +
        (okRecords [ItemOutcome.ok recA, ItemOutcome.extractFail, ItemOutcome.ok recB]).length) :=
  ⟨by intro r hr; simp at hr, rfl,
   C3_thm [ItemOutcome.ok recA, ItemOutcome.extractFail, ItemOutcome.ok recB] initState
     (by intro r hr; simp at hr) rfl⟩

/-- Claim C5, counterexample: a page whose item-list fetch fails aborts the
worker at once — the following good page is never processed and no counter
is incremented, instead of the page being retried, skipped and counted. -/
theorem C5_counterexample :
    get_products_df [PageOutcome.fetchFail, PageOutcome.items [ItemOutcome.ok recE]]
      = Except.error () := rfl

/-- Claim C5, amended: a page fetch failure is uncaught
(`get_products_urls_by_page` sits outside the `try` block): whatever the
worker state and whatever pages remain, it immediately aborts the worker's
whole partition — there is no retry, no page-failure counting, and no
advance to the next PageId. -/
theorem C5_thm : ∀ (s : WorkerState) (rest : List PageOutcome),
    pagesLoop s (PageOutcome.fetchFail :: rest) = Except.error () := by
  intro s rest
  rfl

/-- Claim C8, counterexample: after a store-insert failure on the first item
the worker goes on to process the second item successfully
(`total_success = 1`) instead of stopping its partition, and the failed
item's record stays in the in-memory list. -/
theorem C8_counterexample :
    (processItems initState [ItemOutcome.storeFail recC, ItemOutcome.ok recD]).total_success = 1 ∧
    (processItems initState [ItemOutcome.storeFail recC, ItemOutcome.ok recD]).products
      = [recC, recD] := by
  exact ⟨rfl, rfl⟩

/-- Claim C8, amended: a failure to persist a record is caught by the same
per-item `except` handler as an extraction failure: the worker increments
its failed counter, leaves the snapshot file untouched, keeps the record in
its in-memory list (it will enter later snapshots), and continues with the
next item — it does not stop the partition. -/
theorem C8_thm : ∀ (s : WorkerState) (r : FieldRecord) (rest : List ItemOutcome),
    processItems s (ItemOutcome.storeFail r :: rest)
      = processItems { s with products := s.products ++ [r],
                              total_error := s.total_error + 1 } rest ∧
    (processItem s (ItemOutcome.storeFail r)).jsonFile = s.jsonFile ∧
    (processItem s (ItemOutcome.storeFail r)).total_success = s.total_success := by
  intro s r rest
  exact ⟨rfl, rfl, rfl⟩

/-- Claim C9 (confirmed): an extraction failure on one item appends no
record, leaves the snapshot file and success counter unchanged, increments
exactly the failed counter, and the worker continues with the remaining
items of the page and the remaining pages of its partition. -/
theorem C9_thm : ∀ (s : WorkerState) (rest : List ItemOutcome) (ps : List PageOutcome),
    processItem s ItemOutcome.extractFail = { s with total_error := s.total_error + 1 } ∧
    pagesLoop s (PageOutcome.items (ItemOutcome.extractFail :: rest) :: ps)
      = pagesLoop { s with total_error := s.total_error + 1 } (PageOutcome.items rest :: ps) := by
  intro s rest ps
  exact ⟨rfl, rfl⟩

/-- The sizes `np.array_split` uses add up to the input length whenever
there is at least one section. -/
theorem sum_splitSizes (L n : Nat) (hn : 1 ≤ n) : (splitSizes L n).sum = L := by
  have hr : L % n < n := Nat.mod_lt _ (by omega)
  have h2 : (L % n) * (L / n) ≤ n * (L / n) := Nat.mul_le_mul_right _ (le_of_lt hr)
  simp only [splitSizes, List.sum_append, List.sum_replicate, smul_eq_mul]
  calc L % n * (L / n + 1) + (n - L % n) * (L / n)
      = (L % n * (L / n) + L % n) + (n * (L / n) - L % n * (L / n)) := by
        rw [Nat.mul_succ, Nat.sub_mul]
    _ = L % n + (L % n * (L / n) + (n * (L / n) - L % n * (L / n))) := by
        rw [Nat.add_comm (L % n * (L / n)) (L % n), Nat.add_assoc]
    _ = L % n + n * (L / n) := by rw [Nat.add_sub_cancel' h2]
    _ = n * (L / n) + L % n := Nat.add_comm _ _
    _ = L := Nat.div_add_mod L n

/-- Concatenating the chunks gives back a prefix of the input, of length the
sum of the chunk sizes. -/
theorem flatten_splitBySizes {α : Type} : ∀ (szs : List Nat) (l : List α),
    (splitBySizes szs l).flatten = l.take szs.sum := by
  intro szs
  induction szs with
  | nil => intro l; simp [splitBySizes]
  | cons sz rest ih =>
    intro l
    simp only [splitBySizes, List.flatten_cons, ih, List.sum_cons]
    rw [List.take_add]

/-- Taking a prefix of `range'` gives a `range'`. -/
theorem take_range1 : ∀ (n k s : Nat), (List.range' s n).take k = List.range' s (min k n) := by
  intro n
  induction n with
  | zero => intro k s; simp
  | succ m ih =>
    intro k s
    cases k with
    | zero => simp
    | succ k2 =>
      rw [List.range'_succ, List.take_succ_cons, ih, Nat.succ_min_succ, List.range'_succ]

/-- Dropping a prefix of `range'` gives a `range'`. -/
theorem drop_range1 : ∀ (n k s : Nat), (List.range' s n).drop k = List.range' (s + k) (n - k) := by
  intro n
  induction n with
  | zero => intro k s; simp
  | succ m ih =>
    intro k s
    cases k with
    | zero => simp
    | succ k2 =>
      rw [List.range'_succ, List.drop_succ_cons, ih, Nat.succ_sub_succ]
      have hs : s + 1 + k2 = s + (k2 + 1) := by omega
      rw [hs]

/-- Every chunk `splitBySizes` cuts out of a contiguous range is itself a
contiguous range. -/
theorem splitBySizes_contiguous : ∀ (szs : List Nat) (s n : Nat) (b : List Nat),
    b ∈ splitBySizes szs (List.range' s n) → ∃ a, b = List.range' a b.length := by
  intro szs
  induction szs with
  | nil => intro s n b hb; simp [splitBySizes] at hb
  | cons sz rest ih =>
    intro s n b hb
    simp only [splitBySizes, List.mem_cons] at hb
    rcases hb with hb | hb
    · refine ⟨s, ?_⟩
      rw [hb, take_range1, List.length_range']
    · rw [drop_range1] at hb
      exact ih _ _ _ hb

/-- Claim C4 (confirmed): for every `totalPages ≥ 1` and `workerCount ≥ 1`,
`np.array_split` partitions the PageIds deterministically (it is a function
of its inputs): the chunks concatenate to exactly `[1..totalPages]`, they
are pairwise disjoint, each chunk is a contiguous range, and a PageId is in
some chunk exactly when it lies in `[1, totalPages]`. -/
theorem C4_thm : ∀ (totalPages workerCount : Nat), 1 ≤ totalPages → 1 ≤ workerCount →
    (buckets totalPages workerCount).flatten = pagesList totalPages ∧
    List.Pairwise List.Disjoint (buckets totalPages workerCount) ∧
    (∀ b ∈ buckets totalPages workerCount, ∃ a, b = List.range' a b.length) ∧
    (∀ p : Nat, (1 ≤ p ∧ p ≤ totalPages) ↔ ∃ b ∈ buckets totalPages workerCount, p ∈ b) := by
  intro T W hT hW
  have hlen : (pagesList T).length = T := List.length_range' _ _ _
  have hflat : (buckets T W).flatten = pagesList T := by
    show (splitBySizes (splitSizes (pagesList T).length W) (pagesList T)).flatten = pagesList T
    rw [flatten_splitBySizes, sum_splitSizes _ _ hW, List.take_length]
  refine ⟨hflat, ?_, ?_, ?_⟩
  · have hnd : (buckets T W).flatten.Nodup := by
      rw [hflat]
      exact List.nodup_range' _ _
    exact (List.nodup_flatten.mp hnd).2
  · intro b hb
    exact splitBySizes_contiguous (splitSizes (pagesList T).length W) 1 T b hb
  · intro p
    constructor
    · intro hp
      have hmem : p ∈ pagesList T := List.mem_range'_1.mpr ⟨hp.1, by omega⟩
      rw [← hflat] at hmem
      exact List.mem_flatten.mp hmem
    · intro hex
      have hmem : p ∈ (buckets T W).flatten := List.mem_flatten.mpr hex
      rw [hflat] at hmem
      have := List.mem_range'_1.mp hmem
      omega

/-- Claim C4, witness: the spec's own scenario `totalPages = 10`,
`workerCount = 4` (sizes `[3,3,2,2]`). -/
theorem C4_witness :
    1 ≤ 10 ∧ 1 ≤ 4 ∧
    ((buckets 10 4).flatten = pagesList 10 ∧
     List.Pairwise List.Disjoint (buckets 10 4) ∧
     (∀ b ∈ buckets 10 4, ∃ a, b = List.range' a b.length) ∧
     (∀ p : Nat, (1 ≤ p ∧ p ≤ 10) ↔ ∃ b ∈ buckets 10 4, p ∈ b)) :=
  ⟨by decide, by decide, C4_thm 10 4 (by decide) (by decide)⟩

/-- Assigning an existing key never changes a dict's ordered key list. -/
theorem updateAssoc_keys : ∀ (dict : FieldRecord) (k v : String),
    (updateAssoc dict k v).map Prod.fst = dict.map Prod.fst := by
  intro dict k v
  induction dict with
  | nil => rfl
  | cons p rest ih =>
    show ((if p.1 = k then (k, v) else p) :: updateAssoc rest k v).map Prod.fst
      = p.1 :: rest.map Prod.fst
    rw [List.map_cons, ih]
    by_cases h : p.1 = k
    · simp [h]
    · simp [h]

/-- One characteristics step preserves the key list. -/
theorem caracStep_keys : ∀ (dict : FieldRecord) (p : CaracP) (d2 : FieldRecord),
    caracStep dict p = Except.ok d2 → d2.map Prod.fst = dict.map Prod.fst := by
  intro dict p d2 h
  cases hs : p.spanLabel with
  | none => simp [caracStep, hs] at h
  | some label =>
    simp only [caracStep, hs] at h
    split at h
    · injection h with h2
      rw [← h2]
      exact updateAssoc_keys _ _ _
    · injection h with h2
      rw [← h2]

/-- The characteristics loop preserves the key list. -/
theorem caracLoop_keys : ∀ (ps : List CaracP) (dict d2 : FieldRecord),
    caracLoop dict ps = Except.ok d2 → d2.map Prod.fst = dict.map Prod.fst := by
  intro ps
  induction ps with
  | nil =>
    intro dict d2 h
    injection h with h2
    rw [h2]
  | cons p rest ih =>
    intro dict d2 h
    cases hs : caracStep dict p with
    | error e => simp [caracLoop, hs] at h
    | ok dmid =>
      simp only [caracLoop, hs] at h
      exact (ih dmid d2 h).trans (caracStep_keys dict p dmid hs)

/-- A successful `get_product_caracteristics` has exactly the 12 declared
characteristic keys. -/
theorem carac_keys_of_ok : ∀ (page : ItemPage) (d : FieldRecord),
    get_product_caracteristics page = Except.ok d → d.map Prod.fst = carac0.map Prod.fst := by
  intro page d h
  cases hc : page.caracContainers with
  | nil => simp [get_product_caracteristics, hc] at h
  | cons c rest =>
    simp only [get_product_caracteristics, hc] at h
    exact caracLoop_keys c carac0 d h

/-- One ingredients step preserves the key list. -/
theorem ingStep_keys : ∀ (dict : FieldRecord) (d : IngredientDiv) (d2 : FieldRecord),
    ingStep dict d = Except.ok d2 → d2.map Prod.fst = dict.map Prod.fst := by
  intro dict d d2 h
  cases hb : d.bLabel with
  | none => simp [ingStep, hb] at h
  | some raw =>
    simp only [ingStep, hb] at h
    split at h
    · split at h
      · injection h with h2
        rw [← h2]
        exact updateAssoc_keys _ _ _
      · cases ha : d.aText with
        | none => rw [ha] at h; exact Except.noConfusion h
        | some t =>
          rw [ha] at h
          injection h with h2
          rw [← h2]
          exact updateAssoc_keys _ _ _
    · injection h with h2
      rw [← h2]

/-- The ingredients loop preserves the key list. -/
theorem ingLoop_keys : ∀ (ds : List IngredientDiv) (dict d2 : FieldRecord),
    ingLoop dict ds = Except.ok d2 → d2.map Prod.fst = dict.map Prod.fst := by
  intro ds
  induction ds with
  | nil =>
    intro dict d2 h
    injection h with h2
    rw [h2]
  | cons d ds ih =>
    intro dict d2 h
    cases hs : ingStep dict d with
    | error e => simp [ingLoop, hs] at h
    | ok dmid =>
      simp only [ingLoop, hs] at h
      exact (ih dmid d2 h).trans (ingStep_keys dict d dmid hs)

/-- A successful `get_ingredients` has exactly the 2 declared ingredient
keys. -/
theorem ing_keys_of_ok : ∀ (page : ItemPage) (d : FieldRecord),
    get_ingredients page = Except.ok d → d.map Prod.fst = ing0.map Prod.fst := by
  intro page d h
  exact ingLoop_keys page.ingredientDivs ing0 d h

/-- The inner key-assignment loop of the 100 g block preserves the key
list. -/
theorem n100AssignKeys_keys : ∀ (ks : List String) (dict : FieldRecord) (v : String),
    (n100AssignKeys dict ks v).map Prod.fst = dict.map Prod.fst := by
  intro ks
  induction ks with
  | nil => intro dict v; rfl
  | cons k ks ih =>
    intro dict v
    show (n100AssignKeys (if strContains v k then updateAssoc dict k v else dict) ks v).map
        Prod.fst = dict.map Prod.fst
    rw [ih]
    by_cases h : strContains v k = true
    · simp [h, updateAssoc_keys]
    · simp [h]

/-- The value loop of the 100 g block preserves the key list. -/
theorem n100Values_keys : ∀ (vs : List String) (dict : FieldRecord),
    (n100Values dict vs).map Prod.fst = dict.map Prod.fst := by
  intro vs
  induction vs with
  | nil => intro dict; rfl
  | cons v vs ih =>
    intro dict
    show (n100Values (n100AssignKeys dict (dict.map Prod.fst) v) vs).map Prod.fst
      = dict.map Prod.fst
    rw [ih, n100AssignKeys_keys]

/-- One 100 g div preserves the key list. -/
theorem n100DivStep_keys : ∀ (dict : FieldRecord) (d : Nutri100Div),
    (n100DivStep dict d).map Prod.fst = dict.map Prod.fst := by
  intro dict d
  unfold n100DivStep
  cases d.h4Texts with
  | nil => rfl
  | cons t ts =>
    by_cases h : t = "Repères nutritionnels pour 100 g"
    · simp [h, n100Values_keys]
    · simp [h]

/-- The 100 g loop preserves the key list. -/
theorem n100Loop_keys : ∀ (ds : List Nutri100Div) (dict : FieldRecord),
    (n100Loop dict ds).map Prod.fst = dict.map Prod.fst := by
  intro ds
  induction ds with
  | nil => intro dict; rfl
  | cons d ds ih =>
    intro dict
    show (n100Loop (n100DivStep dict d) ds).map Prod.fst = dict.map Prod.fst
    rw [ih, n100DivStep_keys]

/-- `get_100g_nutritional_info` always has exactly the 4 declared keys. -/
theorem get_100g_keys (page : ItemPage) :
    (get_100g_nutritional_info page).map Prod.fst = n100init.map Prod.fst :=
  n100Loop_keys page.nutri100Divs n100init

/-- A successful `get_nutritional_info` has exactly the 2 declared energy
keys. -/
theorem nutri_keys_of_ok : ∀ (page : ItemPage) (d : FieldRecord),
    get_nutritional_info page = Except.ok d → d.map Prod.fst = nutri0.map Prod.fst := by
  intro page d h
  cases h1 : tdValue page.energyKcalTds with
  | error e => simp [get_nutritional_info, h1] at h
  | ok v1 =>
    cases h2 : tdValue page.energyTds with
    | error e => simp [get_nutritional_info, h1, h2] at h
    | ok v2 =>
      simp only [get_nutritional_info, h1, h2] at h
      injection h with h3
      rw [← h3]
      cases v2 with
      | none =>
        cases v1 with
        | none => rfl
        | some v => exact updateAssoc_keys _ _ _
      | some w =>
        cases v1 with
        | none => exact updateAssoc_keys _ _ _
        | some v => rw [updateAssoc_keys, updateAssoc_keys]

/-- Claim C6 (confirmed): every record a successful extraction returns has
exactly the declared 27-key schema, in order, with every key bound to some
string value — no key is ever omitted, so all records of a run share one key
set. -/
theorem C6_thm : ∀ (page : ItemPage) (r : FieldRecord),
    get_product_info page = Except.ok r →
    r.map Prod.fst = declared_fields ∧ (∀ k ∈ declared_fields, ∃ v, (k, v) ∈ r) := by
  intro page r h
  unfold get_product_info at h
  cases h1 : get_product_name page with
  | error e => rw [h1] at h; exact Except.noConfusion h
  | ok name =>
    rw [h1] at h
    cases h2 : get_scores page with
    | error e => rw [h2] at h; exact Except.noConfusion h
    | ok triple =>
      rw [h2] at h
      obtain ⟨ns, nova, eco⟩ := triple
      cases h3 : get_product_caracteristics page with
      | error e => rw [h3] at h; exact Except.noConfusion h
      | ok carac =>
        rw [h3] at h
        cases h4 : get_ingredients page with
        | error e => rw [h4] at h; exact Except.noConfusion h
        | ok ing =>
          rw [h4] at h
          cases h5 : get_nutritional_info page with
          | error e => rw [h5] at h; exact Except.noConfusion h
          | ok nutri =>
            rw [h5] at h
            cases h6 : get_environment_impact page with
            | error e => rw [h6] at h; exact Except.noConfusion h
            | ok env =>
              rw [h6] at h
              injection h with hr
              have hkeys : r.map Prod.fst = declared_fields := by
                rw [← hr]
                simp only [List.map_append, List.map_cons, List.map_nil]
                rw [carac_keys_of_ok page carac h3, ing_keys_of_ok page ing h4,
                    nutri_keys_of_ok page nutri h5, get_100g_keys]
                rfl
              refine ⟨hkeys, ?_⟩
              intro k hk
              rw [← hkeys] at hk
              obtain ⟨x, hx, hxk⟩ := List.mem_map.mp hk
              refine ⟨x.2, ?_⟩
              rw [← hxk]
              simpa using hx

/-- Claim C6, witness: the rich concrete page `pageC6` extracts to `recC6`,
which carries exactly the declared key set. -/
theorem C6_witness :
    get_product_info pageC6 = Except.ok recC6 ∧
    (recC6.map Prod.fst = declared_fields ∧ (∀ k ∈ declared_fields, ∃ v, (k, v) ∈ recC6)) :=
  ⟨by rfl, C6_thm pageC6 recC6 (by rfl)⟩

/-- Claim C7, counterexample: with the first partition completing one
product successfully and the second partition hard-failing on a page fetch,
`main`'s result collection re-raises the failure — the run is not successful
even though one partition completed. -/
theorem C7_counterexample :
    get_products_df [PageOutcome.items [ItemOutcome.ok recF]]
      = Except.ok ⟨[recF], [recF], 1, 0⟩ ∧
    collect_results [get_products_df [PageOutcome.items [ItemOutcome.ok recF]],
                     get_products_df [PageOutcome.fetchFail]]
      = Except.error () := by
  exact ⟨rfl, rfl⟩

/-- Claim C7, amended: `main` waits on its jobs in submission order and
`job.get()` re-raises the first worker failure, so the collected run result
exists exactly when every partition completed — a single hard-failed
partition aborts the aggregation (the artifacts already written by completed
workers stay on disk, but the run does not finish successfully). -/
theorem C7_thm : ∀ (jobs : List (Except Unit WorkerState)),
    (∃ sl, collect_results jobs = Except.ok sl) ↔ (∀ j ∈ jobs, ∃ a, j = Except.ok a) := by
  intro jobs
  induction jobs with
  | nil => simp [collect_results]
  | cons j rest ih =>
    cases j with
    | error e =>
      constructor
      · rintro ⟨sl, hsl⟩
        exact Except.noConfusion hsl
      · intro hall
        obtain ⟨a, ha⟩ := hall (Except.error e) (List.mem_cons_self _ _)
        exact Except.noConfusion ha
    | ok a =>
      constructor
      · rintro ⟨sl, hsl⟩ j hj
        rcases List.mem_cons.mp hj with hj1 | hj2
        · exact ⟨a, by rw [hj1]⟩
        · cases hc : collect_results rest with
          | error e =>
            rw [show collect_results (Except.ok a :: rest)
                  = (match collect_results rest with
                     | Except.error e => Except.error e
                     | Except.ok others => Except.ok (a :: others)) from rfl, hc] at hsl
            exact Except.noConfusion hsl
          | ok others => exact ih.mp ⟨others, hc⟩ j hj2
      · intro hall
        have hrest : ∀ j ∈ rest, ∃ a2, j = Except.ok a2 := fun j hj =>
          hall j (List.mem_cons_of_mem _ hj)
        obtain ⟨sl, hsl⟩ := ih.mpr hrest
        refine ⟨a :: sl, ?_⟩
        rw [show collect_results (Except.ok a :: rest)
              = (match collect_results rest with
                 | Except.error e => Except.error e
                 | Except.ok others => Except.ok (a :: others)) from rfl, hsl]

/-- Looking a key up past an append whose left part does not carry it. -/
theorem lookup_append_right : ∀ (l1 l2 : FieldRecord) (k : String),
    k ∉ l1.map Prod.fst → (l1 ++ l2).lookup k = l2.lookup k := by
  intro l1
  induction l1 with
  | nil => intro l2 k h; rfl
  | cons p rest ih =>
    intro l2 k h
    obtain ⟨k1, v1⟩ := p
    simp only [List.map_cons, List.mem_cons] at h
    push_neg at h
    have hbeq : (k == k1) = false := beq_eq_false_iff_ne.mpr h.1
    show List.lookup k ((k1, v1) :: (rest ++ l2)) = List.lookup k l2
    simp only [List.lookup, hbeq]
    exact ih l2 k h.2

/-- Effect of one ingredients step on the palm-oil entry: the dict keeps the
shape `[Additifs, palm]`; the palm value flips to `'Yes'` exactly when the
div carries the palm label, and is untouched otherwise. -/
theorem ingStep_palm : ∀ (a p : String) (d : IngredientDiv) (d2 : FieldRecord),
    ingStep [("Additifs", a), (palmKey, p)] d = Except.ok d2 →
    (palmMatch d = true ∧ ∃ a2, d2 = [("Additifs", a2), (palmKey, "Yes")]) ∨
    (palmMatch d = false ∧ ∃ a2, d2 = [("Additifs", a2), (palmKey, p)]) := by
  intro a p d d2 h
  cases hb : d.bLabel with
  | none => simp [ingStep, hb] at h
  | some raw =>
    simp only [ingStep, hb] at h
    have hmap : ((([("Additifs", a), (palmKey, p)] : FieldRecord).map Prod.fst) : List String)
        = ["Additifs", palmKey] := rfl
    rw [hmap] at h
    by_cases hk : pyReplace raw " :" "" = palmKey
    · left
      refine ⟨by simp [palmMatch, hb, hk], ?_⟩
      rw [hk] at h
      have hcont : ((["Additifs", palmKey] : List String).contains palmKey) = true := by decide
      have hstr : strContains palmKey "l\x27huile de palme" = true := by decide
      simp only [hcont, hstr, if_true] at h
      have hupd : updateAssoc [("Additifs", a), (palmKey, p)] palmKey "Yes"
          = [("Additifs", a), (palmKey, "Yes")] := by
        have hne : ("Additifs" : String) ≠ palmKey := by decide
        simp [updateAssoc, hne]
      injection h with h2
      exact ⟨a, by rw [← h2]; exact hupd⟩
    · right
      refine ⟨by simp [palmMatch, hb, beq_eq_false_iff_ne, hk], ?_⟩
      by_cases hA : pyReplace raw " :" "" = "Additifs"
      · rw [hA] at h
        have hcontA : ((["Additifs", palmKey] : List String).contains "Additifs") = true := by
          decide
        have hstrA : strContains "Additifs" "l\x27huile de palme" = false := by decide
        simp only [hcontA, hstrA, if_true, Bool.false_eq_true, if_false] at h
        cases ha : d.aText with
        | none => rw [ha] at h; exact Except.noConfusion h
        | some t =>
          rw [ha] at h
          injection h with h2
          have hupdA : updateAssoc [("Additifs", a), (palmKey, p)] "Additifs" t
              = [("Additifs", t), (palmKey, p)] := by
            have hne2 : palmKey ≠ ("Additifs" : String) := by decide
            simp [updateAssoc, hne2]
          exact ⟨t, by rw [← h2]; exact hupdA⟩
      · have hb1 : (pyReplace raw " :" "" == "Additifs") = false := beq_eq_false_iff_ne.mpr hA
        have hb2 : (pyReplace raw " :" "" == palmKey) = false := beq_eq_false_iff_ne.mpr hk
        have hcontN : ((["Additifs", palmKey] : List String).contains (pyReplace raw " :" ""))
            = false := by
          simp only [List.contains_cons, List.contains_nil, hb1, hb2, Bool.or_false,
            Bool.or_self]
        simp only [hcontN, Bool.false_eq_true, if_false] at h
        injection h with h2
        exact ⟨a, h2.symm⟩

/-- Effect of the whole ingredients loop on the palm-oil entry. -/
theorem ingLoop_palm : ∀ (ds : List IngredientDiv) (a p : String) (res : FieldRecord),
    ingLoop [("Additifs", a), (palmKey, p)] ds = Except.ok res →
    ∃ a2, res = [("Additifs", a2), (palmKey, if ds.any palmMatch then "Yes" else p)] := by
  intro ds
  induction ds with
  | nil =>
    intro a p res h
    injection h with h2
    exact ⟨a, by rw [← h2]; simp⟩
  | cons d ds ih =>
    intro a p res h
    cases hs : ingStep [("Additifs", a), (palmKey, p)] d with
    | error e => simp [ingLoop, hs] at h
    | ok dmid =>
      simp only [ingLoop, hs] at h
      rcases ingStep_palm a p d dmid hs with ⟨hm, a2, hd⟩ | ⟨hm, a2, hd⟩
      · subst hd
        obtain ⟨a3, hres⟩ := ih a2 "Yes" res h
        refine ⟨a3, ?_⟩
        rw [hres]
        simp [List.any_cons, hm, ite_self]
      · subst hd
        obtain ⟨a3, hres⟩ := ih a2 p res h
        refine ⟨a3, ?_⟩
        rw [hres]
        simp [List.any_cons, hm]

/-- Claim C10 (confirmed): in every successfully extracted record the
palm-oil field is `'Yes'` exactly when some ingredient div carries the
palm-oil label and `'No'` otherwise — in particular it is never the
sentinel, unlike the other defaulted fields. -/
theorem C10_thm : ∀ (page : ItemPage) (r : FieldRecord),
    get_product_info page = Except.ok r →
    r.lookup palmKey = some (if page.ingredientDivs.any palmMatch then "Yes" else "No") ∧
    r.lookup palmKey ≠ some UNKNOWN_VALUE := by
  intro page r h
  unfold get_product_info at h
  cases h1 : get_product_name page with
  | error e => rw [h1] at h; exact Except.noConfusion h
  | ok name =>
    rw [h1] at h
    cases h2 : get_scores page with
    | error e => rw [h2] at h; exact Except.noConfusion h
    | ok triple =>
      rw [h2] at h
      obtain ⟨ns, nova, eco⟩ := triple
      cases h3 : get_product_caracteristics page with
      | error e => rw [h3] at h; exact Except.noConfusion h
      | ok carac =>
        rw [h3] at h
        cases h4 : get_ingredients page with
        | error e => rw [h4] at h; exact Except.noConfusion h
        | ok ing =>
          rw [h4] at h
          cases h5 : get_nutritional_info page with
          | error e => rw [h5] at h; exact Except.noConfusion h
          | ok nutri =>
            rw [h5] at h
            cases h6 : get_environment_impact page with
            | error e => rw [h6] at h; exact Except.noConfusion h
            | ok env =>
              rw [h6] at h
              injection h with hr
              obtain ⟨a2, hing⟩ := ingLoop_palm page.ingredientDivs UNKNOWN_VALUE "No" ing h4
              have hlk : r.lookup palmKey
                  = some (if page.ingredientDivs.any palmMatch then "Yes" else "No") := by
                rw [← hr]
                simp only [List.append_assoc]
                have h5notin : palmKey ∉
                    (([("Nom du Produit", name), ("Code_barres", get_code_barres page),
                       ("Nutri-score", ns), ("NOVA", nova), ("Eco-Score", eco)] :
                      FieldRecord).map Prod.fst) := by
                  have hm5 : (([("Nom du Produit", name), ("Code_barres", get_code_barres page),
                       ("Nutri-score", ns), ("NOVA", nova), ("Eco-Score", eco)] :
                      FieldRecord).map Prod.fst)
                      = ["Nom du Produit", "Code_barres", "Nutri-score", "NOVA", "Eco-Score"] :=
                    rfl
                  rw [hm5]
                  decide
                rw [lookup_append_right _ _ palmKey h5notin]
                have hcnotin : palmKey ∉ carac.map Prod.fst := by
                  rw [carac_keys_of_ok page carac h3]
                  have hmc : (carac0.map Prod.fst)
                      = ["Dénomination générique", "Quantité", "Conditionnement", "Marques",
                         "Catégories", "Labels, certifications, récompenses",
                         "Origine des ingrédients",
                         "Lieux de fabrication ou de transformation", "Code de traçabilité",
                         "Lien vers la page du produit sur le site officiel du fabricant",
                         "Magasins", "Pays de vente"] := rfl
                  rw [hmc]
                  decide
                rw [lookup_append_right _ _ palmKey hcnotin, hing]
                have hb1 : ((palmKey : String) == "Additifs") = false := by decide
                have hb2 : ((palmKey : String) == palmKey) = true := by decide
                simp [List.lookup, List.cons_append, hb1, hb2]
              refine ⟨hlk, ?_⟩
              rw [hlk]
              cases hany : page.ingredientDivs.any palmMatch <;> simp [hany] <;> decide

/-- Claim C10, witness: the concrete palm-oil page `pageC10` extracts to
`recC10`, whose palm-oil field is `'Yes'`. -/
theorem C10_witness :
    get_product_info pageC10 = Except.ok recC10 ∧
    (recC10.lookup palmKey
       = some (if pageC10.ingredientDivs.any palmMatch then "Yes" else "No") ∧
     recC10.lookup palmKey ≠ some UNKNOWN_VALUE) :=
  ⟨by rfl, C10_thm pageC10 recC10 (by rfl)⟩

/-- Claim C7, witness: the amended statement at a concrete one-job list. -/
theorem C7_witness :
    (∃ sl, collect_results [Except.ok initState] = Except.ok sl) ↔
    (∀ j ∈ ([Except.ok initState] : List (Except Unit WorkerState)), ∃ a, j = Except.ok a) :=
  C7_thm [Except.ok initState]
